import Mathlib

/-!
Shallow embedding of devtools/shell-action.py: a mock shell action script
with two operations, `check` (poll the action status file, report it, and
clean it up) and `run` (write a running record, detach via a double fork,
execute the command, write the terminal record).  The filesystem is
modelled as a map from paths to file contents; a file content is either
JSON decodable to a status record or undecodable content.
-/

namespace ShellAction

/-- A status record as serialized to the status file: a `status` string and
an optional `error` string. -/
structure StatusRecord where
  status : String
  error : Option String
deriving DecidableEq

/-- Content of a status file: either JSON decodable to a status record, or
content whose decoding raises a ValueError. -/
inductive FileContent where
  | json (r : StatusRecord)
  | invalid
deriving DecidableEq

/-- The filesystem: a map from paths to file contents. -/
def FS : Type := String → Option FileContent

/-- Opening and decoding a file at a path. -/
def fsRead (fs : FS) (p : String) : Option FileContent := fs p

/-- Writing a file, overwriting in place. -/
def fsWrite (fs : FS) (p : String) (c : FileContent) : FS :=
  fun q => if q = p then some c else fs q

/-- os.remove, with removal of a missing file a no-op (the script swallows
the exception). -/
def fsRemove (fs : FS) (p : String) : FS :=
  fun q => if q = p then none else fs q

/-- The status path built by `check` (source line 17). -/
def checkStatusPath (uid actionId : String) : String :=
  "/var/run/user/" ++ uid ++ "/" ++ actionId

/-- The status path built by `run` (source line 49). -/
def runStatusPath (uid actionId : String) : String :=
  "/var/run/user/" ++ uid ++ "/" ++ actionId

/-- The value of the --uid flag, with its argparse default of "1000". -/
def uidArg (flagValue : Option String) : String := flagValue.getD "1000"

/-- Loading the latest status in `check`: a missing file raises IOError,
reported as "status file not found"; undecodable content raises ValueError,
reported as "unable to decode status file". -/
def loadStatus (fs : FS) (status_path : String) : StatusRecord :=
  match fsRead fs status_path with
  | none => { status := "failed", error := some "status file not found" }
  | some FileContent.invalid =>
      { status := "failed", error := some "unable to decode status file" }
  | some (FileContent.json r) => r

/-- Result of one `check` invocation: the record dumped to standard output
and the filesystem after the cleanup step. -/
structure CheckResult where
  output : StatusRecord
  fs : FS

/-- The `check` action: load the latest status, dump it to standard output,
and remove the status file unless the status is "running". -/
def check (fs : FS) (uid actionId : String) : CheckResult :=
  let status_path := checkStatusPath uid actionId
  let status := loadStatus fs status_path
  if status.status != "running" then
    { output := status, fs := fsRemove fs status_path }
  else
    { output := status, fs := fs }

/-- The result of subprocess.run: exit code and captured standard error. -/
structure CompletedProcess where
  returncode : Int
  stderr : String
deriving DecidableEq

/-- The terminal status computed by `run` after the command exits:
"finished", replaced by "failed" with the captured stderr as `error` when
the exit code is non-zero. -/
def terminalStatus (output : CompletedProcess) : StatusRecord :=
  let status : StatusRecord := { status := "finished", error := none }
  if output.returncode != 0 then
    { status := "failed", error := some output.stderr }
  else
    status

/-- Observable events of the `run` action. -/
inductive RunEvent where
  | writeStatus (path : String) (r : StatusRecord)
  | fork
  | chdirRoot
  | setsid
  | umask0
  | redirectStdStreams
  | execCommand (cmd : List String)
deriving DecidableEq

/-- The ordered event trace of `run` along the grandchild path: the running
record is written first, then the double fork with session detach, the
stream redirection, the command execution, and the terminal record. -/
def runTrace (uid actionId : String) (cmd : List String)
    (output : CompletedProcess) : List RunEvent :=
  [ RunEvent.writeStatus (runStatusPath uid actionId)
      { status := "running", error := none },
    RunEvent.fork,
    RunEvent.chdirRoot,
    RunEvent.setsid,
    RunEvent.umask0,
    RunEvent.fork,
    RunEvent.redirectStdStreams,
    RunEvent.execCommand cmd,
    RunEvent.writeStatus (runStatusPath uid actionId) (terminalStatus output) ]

/-- The records a trace writes to path `p`, in order. -/
def statusWrites (p : String) : List RunEvent → List StatusRecord
  | [] => []
  | RunEvent.writeStatus q r :: rest =>
      if q = p then r :: statusWrites p rest else statusWrites p rest
  | _ :: rest => statusWrites p rest

/-- Filesystem after `run` has written the running record (what the invoker
sees right after the fork handoff). -/
def runLaunchFS (fs : FS) (uid actionId : String) : FS :=
  fsWrite fs (runStatusPath uid actionId)
    (FileContent.json { status := "running", error := none })

/-- Filesystem after the detached grandchild has executed the command and
overwritten the status file with the terminal record. -/
def runCompleteFS (fs : FS) (uid actionId : String)
    (output : CompletedProcess) : FS :=
  fsWrite (runLaunchFS fs uid actionId) (runStatusPath uid actionId)
    (FileContent.json (terminalStatus output))

/-- The empty filesystem. -/
def emptyFS : FS := fun _ => none

/-- A filesystem holding one undecodable status file for action "a1". -/
def corruptFS : FS :=
  fun q => if q = checkStatusPath "1000" "a1" then some FileContent.invalid else none

/-- A filesystem holding one running status file for action "a1". -/
def runningFS : FS :=
  fun q =>
    if q = checkStatusPath "1000" "a1" then
      some (FileContent.json { status := "running", error := none })
    else none

/-- A filesystem holding one finished status file for action "a1". -/
def finishedFS : FS :=
  fun q =>
    if q = checkStatusPath "1000" "a1" then
      some (FileContent.json { status := "finished", error := none })
    else none

/-- Both operations compute the status path the same way. -/
theorem checkStatusPath_eq_run (uid actionId : String) :
    checkStatusPath uid actionId = runStatusPath uid actionId := rfl

theorem fsRead_fsWrite_self (fs : FS) (p : String) (c : FileContent) :
    fsRead (fsWrite fs p c) p = some c := by
  simp [fsRead, fsWrite]

theorem fsRead_fsRemove_self (fs : FS) (p : String) :
    fsRead (fsRemove fs p) p = none := by
  simp [fsRead, fsRemove]

/-- The record reported by `check` is the loaded status, on both branches of
the cleanup step. -/
theorem check_output_eq (fs : FS) (uid actionId : String) :
    (check fs uid actionId).output = loadStatus fs (checkStatusPath uid actionId) := by
  unfold check
  dsimp only
  split <;> rfl

/-- When the reported status is not "running", `check` removes the file. -/
theorem check_not_running_removes (fs : FS) (uid actionId : String)
    (h : (check fs uid actionId).output.status ≠ "running") :
    (check fs uid actionId).fs = fsRemove fs (checkStatusPath uid actionId) := by
  rw [check_output_eq] at h
  unfold check
  rw [if_pos (by simpa [bne_iff_ne] using h)]

/-- When the loaded status is "running", `check` leaves the filesystem
untouched. -/
theorem check_running_keeps (fs : FS) (uid actionId : String)
    (h : (loadStatus fs (checkStatusPath uid actionId)).status = "running") :
    (check fs uid actionId).fs = fs := by
  unfold check
  rw [if_neg (by simp [h])]

/-- C1: a command that exits 0 gets the terminal record {status: finished}
with no error field written to the status file, and a poll before deletion
observes exactly that record. -/
theorem run_exit_zero_finished (fs : FS) (uid actionId : String)
    (output : CompletedProcess) (h : output.returncode = 0) :
    fsRead (runCompleteFS fs uid actionId output) (runStatusPath uid actionId)
      = some (FileContent.json { status := "finished", error := none })
    ∧ (check (runCompleteFS fs uid actionId output) uid actionId).output
      = { status := "finished", error := none } := by
  have hterm : terminalStatus output = { status := "finished", error := none } := by
    simp [terminalStatus, h]
  have hread : fsRead (runCompleteFS fs uid actionId output) (runStatusPath uid actionId)
      = some (FileContent.json (terminalStatus output)) :=
    fsRead_fsWrite_self _ _ _
  refine ⟨by rw [hread, hterm], ?_⟩
  rw [check_output_eq]
  unfold loadStatus
  rw [checkStatusPath_eq_run, hread, hterm]

theorem run_exit_zero_finished_witness :
    fsRead (runCompleteFS emptyFS "1000" "a1" { returncode := 0, stderr := "" })
      (runStatusPath "1000" "a1")
      = some (FileContent.json { status := "finished", error := none })
    ∧ (check (runCompleteFS emptyFS "1000" "a1" { returncode := 0, stderr := "" }) "1000" "a1").output
      = { status := "finished", error := none } :=
  run_exit_zero_finished emptyFS "1000" "a1" { returncode := 0, stderr := "" } rfl

/-- C2: a command that exits non-zero gets the terminal record
{status: failed, error: stderr} written to the status file. -/
theorem run_exit_nonzero_failed (fs : FS) (uid actionId : String)
    (output : CompletedProcess) (h : output.returncode ≠ 0) :
    fsRead (runCompleteFS fs uid actionId output) (runStatusPath uid actionId)
      = some (FileContent.json { status := "failed", error := some output.stderr }) := by
  have hterm : terminalStatus output = { status := "failed", error := some output.stderr } := by
    simp [terminalStatus, bne_iff_ne, h]
  unfold runCompleteFS
  rw [fsRead_fsWrite_self, hterm]

theorem run_exit_nonzero_failed_witness :
    fsRead (runCompleteFS emptyFS "1000" "a1" { returncode := 2, stderr := "boom" })
      (runStatusPath "1000" "a1")
      = some (FileContent.json { status := "failed", error := some "boom" }) :=
  run_exit_nonzero_failed emptyFS "1000" "a1" { returncode := 2, stderr := "boom" } (by decide)

/-- C3 counterexample: with an undecodable status file present, `check`
reports the decode failure but, since the reported status is not "running",
it removes the status file — contradicting the claim that the file is not
deleted. -/
theorem check_undecodable_deletes_counterexample :
    (check corruptFS "1000" "a1").output
      = { status := "failed", error := some "unable to decode status file" }
    ∧ fsRead corruptFS (checkStatusPath "1000" "a1") = some FileContent.invalid
    ∧ fsRead (check corruptFS "1000" "a1").fs (checkStatusPath "1000" "a1") = none := by
  exact ⟨rfl, rfl, rfl⟩

/-- C3 (amended): with an undecodable status file, `check` reports
{status: failed, error: "unable to decode status file"} and deletes the
status file, since the reported status is not "running". -/
theorem check_undecodable_amended (fs : FS) (uid actionId : String)
    (h : fsRead fs (checkStatusPath uid actionId) = some FileContent.invalid) :
    (check fs uid actionId).output
      = { status := "failed", error := some "unable to decode status file" }
    ∧ (check fs uid actionId).fs = fsRemove fs (checkStatusPath uid actionId) := by
  have hload : loadStatus fs (checkStatusPath uid actionId)
      = { status := "failed", error := some "unable to decode status file" } := by
    unfold loadStatus
    rw [h]
  refine ⟨by rw [check_output_eq, hload], ?_⟩
  apply check_not_running_removes
  rw [check_output_eq, hload]
  decide

theorem check_undecodable_amended_witness :
    (check corruptFS "1000" "a1").output
      = { status := "failed", error := some "unable to decode status file" }
    ∧ (check corruptFS "1000" "a1").fs = fsRemove corruptFS (checkStatusPath "1000" "a1") :=
  check_undecodable_amended corruptFS "1000" "a1" rfl

/-- C4: polling an id with no status file reports exactly
{status: failed, error: "status file not found"} on standard output. -/
theorem check_missing_not_found (fs : FS) (uid actionId : String)
    (h : fsRead fs (checkStatusPath uid actionId) = none) :
    (check fs uid actionId).output
      = { status := "failed", error := some "status file not found" } := by
  rw [check_output_eq]
  unfold loadStatus
  rw [h]

theorem check_missing_not_found_witness :
    (check emptyFS "1000" "a1").output
      = { status := "failed", error := some "status file not found" } :=
  check_missing_not_found emptyFS "1000" "a1" rfl

/-- C5: a poll that reads a record with status "running" reports that record
and leaves the filesystem unchanged; the file is removed exactly when the
reported status is not "running". -/
theorem check_running_preserves (fs : FS) (uid actionId : String) :
    (∀ r : StatusRecord,
      fsRead fs (checkStatusPath uid actionId) = some (FileContent.json r) →
      r.status = "running" →
      (check fs uid actionId).output = r ∧ (check fs uid actionId).fs = fs)
    ∧ ((check fs uid actionId).output.status ≠ "running" →
      (check fs uid actionId).fs = fsRemove fs (checkStatusPath uid actionId)) := by
  constructor
  · intro r hr hrun
    have hload : loadStatus fs (checkStatusPath uid actionId) = r := by
      unfold loadStatus
      rw [hr]
    refine ⟨by rw [check_output_eq, hload], ?_⟩
    apply check_running_keeps
    rw [hload]
    exact hrun
  · intro hne
    exact check_not_running_removes fs uid actionId hne

theorem check_running_preserves_witness :
    (check runningFS "1000" "a1").output = { status := "running", error := none }
    ∧ (check runningFS "1000" "a1").fs = runningFS :=
  (check_running_preserves runningFS "1000" "a1").1
    { status := "running", error := none } rfl rfl

/-- C6: after a poll that reports a terminal (non-running) status, the file
has been deleted, so a second poll for the same id reports
{status: failed, error: "status file not found"}. -/
theorem check_terminal_second_not_found (fs : FS) (uid actionId : String)
    (h : (check fs uid actionId).output.status ≠ "running") :
    (check (check fs uid actionId).fs uid actionId).output
      = { status := "failed", error := some "status file not found" } := by
  rw [check_not_running_removes fs uid actionId h, check_output_eq]
  unfold loadStatus
  rw [fsRead_fsRemove_self]

theorem check_terminal_second_not_found_witness :
    (check (check finishedFS "1000" "a1").fs "1000" "a1").output
      = { status := "failed", error := some "status file not found" } :=
  check_terminal_second_not_found finishedFS "1000" "a1" (by decide)

/-- C7: the three error conditions — missing status file, undecodable status
file, and non-zero command exit — are each reported by the poller as a
"failed" status with a human-readable error string; `check` is a total
function, so none of them aborts the poll. -/
theorem check_errors_nonfatal (fs : FS) (uid actionId : String)
    (output : CompletedProcess) :
    (fsRead fs (checkStatusPath uid actionId) = none →
      (check fs uid actionId).output.status = "failed"
      ∧ (check fs uid actionId).output.error = some "status file not found")
    ∧ (fsRead fs (checkStatusPath uid actionId) = some FileContent.invalid →
      (check fs uid actionId).output.status = "failed"
      ∧ (check fs uid actionId).output.error = some "unable to decode status file")
    ∧ (output.returncode ≠ 0 →
      (check (runCompleteFS fs uid actionId output) uid actionId).output.status = "failed"
      ∧ (check (runCompleteFS fs uid actionId output) uid actionId).output.error
        = some output.stderr) := by
  refine ⟨fun h => ?_, fun h => ?_, fun h => ?_⟩
  · rw [check_output_eq]
    unfold loadStatus
    rw [h]
    exact ⟨rfl, rfl⟩
  · rw [check_output_eq]
    unfold loadStatus
    rw [h]
    exact ⟨rfl, rfl⟩
  · have hterm : terminalStatus output
        = { status := "failed", error := some output.stderr } := by
      simp [terminalStatus, bne_iff_ne, h]
    have hread : fsRead (runCompleteFS fs uid actionId output) (runStatusPath uid actionId)
        = some (FileContent.json (terminalStatus output)) :=
      fsRead_fsWrite_self _ _ _
    rw [check_output_eq]
    unfold loadStatus
    rw [checkStatusPath_eq_run, hread, hterm]
    exact ⟨rfl, rfl⟩

theorem check_errors_nonfatal_witness :
    ((check emptyFS "1000" "a1").output.status = "failed"
      ∧ (check emptyFS "1000" "a1").output.error = some "status file not found")
    ∧ ((check corruptFS "1000" "a1").output.status = "failed"
      ∧ (check corruptFS "1000" "a1").output.error = some "unable to decode status file")
    ∧ ((check (runCompleteFS emptyFS "1000" "a1" { returncode := 2, stderr := "boom" })
          "1000" "a1").output.status = "failed"
      ∧ (check (runCompleteFS emptyFS "1000" "a1" { returncode := 2, stderr := "boom" })
          "1000" "a1").output.error = some "boom") :=
  ⟨(check_errors_nonfatal emptyFS "1000" "a1" { returncode := 2, stderr := "boom" }).1 rfl,
   (check_errors_nonfatal corruptFS "1000" "a1" { returncode := 2, stderr := "boom" }).2.1 rfl,
   (check_errors_nonfatal emptyFS "1000" "a1" { returncode := 2, stderr := "boom" }).2.2
     (by decide)⟩

/-- C8: in the `run` event trace, the {status: running} record is written as
the very first event — in particular before the first fork of the detach
sequence — and the writes to the status path occur in the order running,
then terminal. -/
theorem run_running_write_first (uid actionId : String) (cmd : List String)
    (output : CompletedProcess) :
    (runTrace uid actionId cmd output)[0]?
      = some (RunEvent.writeStatus (runStatusPath uid actionId)
          { status := "running", error := none })
    ∧ (runTrace uid actionId cmd output)[1]? = some RunEvent.fork
    ∧ statusWrites (runStatusPath uid actionId) (runTrace uid actionId cmd output)
      = [{ status := "running", error := none }, terminalStatus output] := by
  refine ⟨rfl, rfl, ?_⟩
  simp [runTrace, statusWrites]

/-- C9: `check` and `run` build the same status path
/var/run/user/<uid>/<id>, with the uid taken from the --uid flag and
defaulting to "1000". -/
theorem paths_agree_default_uid (uidFlag : Option String) (actionId : String) :
    checkStatusPath (uidArg uidFlag) actionId = runStatusPath (uidArg uidFlag) actionId
    ∧ checkStatusPath (uidArg uidFlag) actionId
      = "/var/run/user/" ++ uidArg uidFlag ++ "/" ++ actionId
    ∧ uidArg none = "1000" :=
  ⟨rfl, rfl, rfl⟩

/-- C10: every record `run` writes to the status path carries an error field
exactly when its status is "failed": the running and finished records have
no error field, and the failed record always has one. -/
theorem run_writes_error_iff_failed (uid actionId : String) (cmd : List String)
    (output : CompletedProcess) (r : StatusRecord)
    (h : r ∈ statusWrites (runStatusPath uid actionId) (runTrace uid actionId cmd output)) :
    r.error.isSome = true ↔ r.status = "failed" := by
  have hw : statusWrites (runStatusPath uid actionId) (runTrace uid actionId cmd output)
      = [{ status := "running", error := none }, terminalStatus output] := by
    simp [runTrace, statusWrites]
  rw [hw] at h
  rcases List.mem_cons.mp h with h1 | h2
  · subst h1
    decide
  · have h2' := List.mem_singleton.mp h2
    subst h2'
    unfold terminalStatus
    by_cases hc : output.returncode = 0
    · simp [hc]
    · simp [bne_iff_ne, hc]

theorem run_writes_error_iff_failed_witness :
    (({ status := "failed", error := some "boom" } : StatusRecord).error).isSome = true
    ↔ ({ status := "failed", error := some "boom" } : StatusRecord).status = "failed" :=
  run_writes_error_iff_failed "1000" "a1" ["false"] { returncode := 2, stderr := "boom" }
    { status := "failed", error := some "boom" } (by decide)
